import Mathlib

/-!
Verification development for the AI Digital Profile repository.

Python strings are modelled as `List Char`; Python's `str.lower`, `str.upper`,
`str.strip` (with and without a character set) and the substring operator `in`
are modelled by executable functions below.  External capabilities (the LLM,
the tiktoken tokenizer, the langchain text splitter and the FAISS index) are
parameters of the embedded functions; everything that the repository's own
Python code computes is transcribed directly from the source.
-/

/-- Python `str` modelled as a list of characters. -/
abbrev Str := List Char

/-- Python `str.lower()` (ASCII model). -/
def pyLower (s : Str) : Str := s.map Char.toLower

/-- Python `str.upper()` (ASCII model). -/
def pyUpper (s : Str) : Str := s.map Char.toUpper

/-- Drop trailing characters satisfying `p`. -/
def dropTrailing (p : Char → Bool) (s : Str) : Str :=
  ((s.reverse).dropWhile p).reverse

/-- Strip characters satisfying `p` from both ends. -/
def pyStripWith (p : Char → Bool) (s : Str) : Str :=
  dropTrailing p (s.dropWhile p)

/-- Python `str.strip()` — strip whitespace from both ends. -/
def pyStrip (s : Str) : Str := pyStripWith Char.isWhitespace s

/-- Python `str.strip(chars)` — strip any of the given characters from both ends. -/
def pyStripChars (cs : List Char) (s : Str) : Str :=
  pyStripWith (fun c => cs.contains c) s

/-- Python's substring operator `w in s`. -/
def pyIn (w : Str) : Str → Bool
  | [] => w.isEmpty
  | c :: t => w.isPrefixOf (c :: t) || pyIn w t

/-- Python slice `l[-n:]`: the last `n` elements (all of `l` when `l` is shorter). -/
def takeLast (n : Nat) (l : List α) : List α := ((l.reverse).take n).reverse

/-- Python `str.isupper()` (ASCII model): at least one cased character and no
lowercase one. -/
def pyIsUpper (s : Str) : Bool :=
  s.any (fun c => c.isAlpha) && s.all (fun c => !c.isLower)

-- ---------------------------------------------------------------------------
-- Basic lemmas about the string model
-- ---------------------------------------------------------------------------

theorem pyIn_eq_true_iff (w s : Str) : pyIn w s = true ↔ w <:+: s := by
  induction s with
  | nil =>
    simp [pyIn, List.isEmpty_iff, List.infix_nil]
  | cons c t ih =>
    simp only [pyIn, Bool.or_eq_true, List.isPrefixOf_iff_prefix, ih,
      List.infix_cons_iff]

theorem infix_dropWhile_of_head (p : Char → Bool) (w : Str)
    (hw : ∀ c, w.head? = some c → p c = false) :
    ∀ s : Str, w <:+: s → w <:+: s.dropWhile p := by
  intro s
  induction s with
  | nil => simp
  | cons c t ih =>
    intro h
    rcases List.infix_cons_iff.mp h with hpre | hinf
    · cases w with
      | nil => simp
      | cons d w' =>
        obtain ⟨hd, -⟩ := List.cons_prefix_cons.mp hpre
        have hpc : p c = false := hd ▸ hw d rfl
        rw [List.dropWhile_cons, if_neg (by simp [hpc])]
        exact h
    · cases hpc : p c with
      | true =>
        rw [List.dropWhile_cons, if_pos (by simp [hpc])]
        exact ih hinf
      | false =>
        rw [List.dropWhile_cons, if_neg (by simp [hpc])]
        exact h

theorem infix_pyStripWith (p : Char → Bool) (w s : Str)
    (hh : ∀ c, w.head? = some c → p c = false)
    (hl : ∀ c, w.getLast? = some c → p c = false)
    (h : w <:+: s) : w <:+: pyStripWith p s := by
  have h1 := infix_dropWhile_of_head p w hh s h
  unfold pyStripWith dropTrailing
  have h3 := infix_dropWhile_of_head p w.reverse
    (by intro c hc; exact hl c (by simpa using hc))
    (s.dropWhile p).reverse (List.reverse_infix.mpr h1)
  exact List.reverse_infix.mp (by simpa using h3)

theorem pyStripWith_within (p : Char → Bool) (s : Str) : pyStripWith p s <:+: s := by
  unfold pyStripWith dropTrailing
  have h1 : s.dropWhile p <:+ s := List.dropWhile_suffix p
  have h2 : (s.dropWhile p).reverse.dropWhile p <:+ (s.dropWhile p).reverse :=
    List.dropWhile_suffix p
  have h3 : ((s.dropWhile p).reverse.dropWhile p).reverse <:+: s.dropWhile p :=
    List.reverse_infix.mp (by simpa using h2.isInfix)
  exact h3.trans h1.isInfix

theorem pyIn_pyStrip_of_pyIn (w s : Str)
    (hh : ∀ c, w.head? = some c → c.isWhitespace = false)
    (hl : ∀ c, w.getLast? = some c → c.isWhitespace = false)
    (h : pyIn w s = true) : pyIn w (pyStrip s) = true := by
  rw [pyIn_eq_true_iff] at h ⊢
  exact infix_pyStripWith Char.isWhitespace w s hh hl h

/-- The literal verdict token searched for by the validator. -/
def PASSstr : Str := "PASS".data

theorem not_whitespace_of_toUpper_mem_pass (c : Char)
    (h : Char.toUpper c ∈ PASSstr) : c.isWhitespace = false := by
  by_contra hc
  rw [Bool.not_eq_false] at hc
  simp only [Char.isWhitespace, Bool.or_eq_true, decide_eq_true_eq] at hc
  rcases hc with ((rfl | rfl) | rfl) | rfl <;> exact absurd h (by decide)

/-- Checking for `PASS` after upper-casing is insensitive to a preceding
whitespace strip: the two normalisations the code and the spec describe agree. -/
theorem pass_in_upper_strip (s : Str) :
    pyIn PASSstr (pyUpper (pyStrip s)) = pyIn PASSstr (pyUpper s) := by
  rw [Bool.eq_iff_iff, pyIn_eq_true_iff, pyIn_eq_true_iff]
  constructor
  · intro h
    exact h.trans (List.IsInfix.map Char.toUpper (pyStripWith_within _ s))
  · intro h
    rcases h with ⟨a, b, hab⟩
    have hab' : s.map Char.toUpper = a ++ (PASSstr ++ b) := by
      rw [show s.map Char.toUpper = pyUpper s from rfl, ← hab]
      simp [List.append_assoc]
    rcases List.map_eq_append_iff.mp hab' with ⟨a', rest, hs, ha, hrest⟩
    rcases List.map_eq_append_iff.mp hrest with ⟨p', b', hr, hp, hb⟩
    have hmem : ∀ c ∈ p', Char.toUpper c ∈ PASSstr := by
      intro c hcm
      rw [← hp]
      exact List.mem_map_of_mem _ hcm
    have hinf : p' <:+: s := ⟨a', b', by rw [hs, hr, List.append_assoc]⟩
    have hstrip : p' <:+: pyStrip s := by
      refine infix_pyStripWith Char.isWhitespace p' s ?_ ?_ hinf
      · intro c hc
        exact not_whitespace_of_toUpper_mem_pass c
          (hmem c (List.mem_of_mem_head? (hc ▸ rfl)))
      · intro c hc
        exact not_whitespace_of_toUpper_mem_pass c
          (hmem c (List.mem_of_getLast?_eq_some hc))
    have := List.IsInfix.map Char.toUpper hstrip
    rwa [hp] at this

-- ---------------------------------------------------------------------------
-- takeLast lemmas (history truncation)
-- ---------------------------------------------------------------------------

theorem takeLast_length_le (n : Nat) (l : List α) : (takeLast n l).length ≤ n := by
  simp [takeLast]

theorem takeLast_of_length_le {n : Nat} {l : List α} (h : l.length ≤ n) :
    takeLast n l = l := by
  unfold takeLast
  rw [List.take_of_length_le (by simpa using h), List.reverse_reverse]

theorem takeLast_append_takeLast (n : Nat) (xs ys : List α) :
    takeLast n (takeLast n xs ++ ys) = takeLast n (xs ++ ys) := by
  unfold takeLast
  rw [← List.reverse_inj]
  simp only [List.reverse_reverse, List.reverse_append]
  rw [List.take_append_eq_append_take, List.take_append_eq_append_take,
    List.take_take]
  congr 1
  rw [Nat.min_eq_left (Nat.sub_le _ _)]

-- ===========================================================================
-- config/settings.py  (defaults of the tuneable values used by the claims)
-- ===========================================================================

/-- `settings.MAX_CONVERSATION_HISTORY` (settings.py line 82). -/
def MAX_CONVERSATION_HISTORY : Nat := 20

/-- `settings.CHUNK_WARNING_THRESHOLD` default (settings.py line 56). -/
def CHUNK_WARNING_THRESHOLD : Nat := 500

/-- `settings.CHUNK_OVERLAP_SIZE` default (settings.py line 58). -/
def CHUNK_OVERLAP_SIZE : Nat := 50

/-- The attributes of the `config.settings` module that `RAGEngine.retrieve`
reads.  `TOP_K_RESULTS` is defined in settings.py (default 4);
`FETCH_RESULTS` is an `Option` because a Python module attribute lookup
raises `AttributeError` when the name is not defined in the module. -/
structure Settings where
  TOP_K_RESULTS : Nat
  FETCH_RESULTS : Option Nat
deriving DecidableEq

/-- The settings module as it exists in the repository: `TOP_K_RESULTS = 4`
and no binding at all for `FETCH_RESULTS` (settings.py defines
`TOP_K_RESULTS` at line 51 and never defines `FETCH_RESULTS`). -/
def actualSettings : Settings := { TOP_K_RESULTS := 4, FETCH_RESULTS := none }

/-- Modelled from the spec: a settings module in which `FETCH_RESULTS` is
defined.  The spec (§4.3) requires the retriever to request `fetch_k > k`
candidates, but settings.py is missing the `FETCH_RESULTS` binding; this
value models the intended configuration with `fetch_k = 20 > k = 4`. -/
def specSettings : Settings := { TOP_K_RESULTS := 4, FETCH_RESULTS := some 20 }

-- ===========================================================================
-- config/prompts.py — TOPIC_MAP
-- ===========================================================================

/-- `TOPIC_MAP` (prompts.py lines 19-32): canonical topic titles; keys and
values coincide. -/
def TOPIC_MAP : List (Str × Str) := [
  ("Introduction".data,                "Introduction".data),
  ("Family Background".data,           "Family Background".data),
  ("Education".data,                   "Education".data),
  ("Job Summary".data,                 "Job Summary".data),
  ("Project Details".data,             "Project Details".data),
  ("Skills".data,                      "Skills".data),
  ("Honours and Awards".data,          "Honours and Awards".data),
  ("Licences and Certifications".data, "Licences and Certifications".data),
  ("Hobbies".data,                     "Hobbies".data),
  ("Languages Known".data,             "Languages Known".data),
  ("Weakness".data,                    "Weakness".data),
  ("Role Suitability".data,            "Role Suitability".data)]

/-- Iterating `for key in TOPIC_MAP` yields the keys in insertion order. -/
def TOPIC_KEYS : List Str := TOPIC_MAP.map Prod.fst

/-- The sentinel topic. -/
def offTopicStr : Str := "off_topic".data

-- ===========================================================================
-- Python exceptions that the embedded code can raise
-- ===========================================================================

inductive PyErr where
  /-- `AttributeError` — e.g. reading a module attribute that is not defined. -/
  | attributeError : PyErr
  /-- `RuntimeError("Vector store not loaded. Call .load() first.")`. -/
  | runtimeError : PyErr
  /-- any exception raised by an LLM / embedding capability call. -/
  | llmError : PyErr
deriving DecidableEq

-- ===========================================================================
-- src/rag_engine.py — RAGEngine
-- ===========================================================================

/-- A chunk stored in the FAISS vector store: text plus string metadata. -/
structure Doc where
  page_content : Str
  metadata : List (Str × Str)
deriving DecidableEq

/-- Modelled from the spec: the external vector index (§2 item 3, §4.3) —
"supports top-k similarity search with an optional exact-match metadata
filter and an over-fetch factor".  `ranked` is the similarity-ranked
document list for the query; with a filter the index over-fetches
`fetchK` candidates, keeps those whose metadata entry equals the filter,
and returns at most `k`; without a filter it returns the top `k`. -/
def faissSearch (ranked : List Doc) (k fetchK : Nat)
    (filt : Option (Str × Str)) : List Doc :=
  match filt with
  | none => ranked.take k
  | some (key, v) =>
    ((ranked.take fetchK).filter
      (fun d => d.metadata.lookup key == some v)).take k

/-- rag_engine.py lines 103-105: `search_filter = {"title": topic} if topic
else None` — Python truthiness: `None` and the empty string are falsy,
every other string (canonical or not) is truthy. -/
def buildSearchFilter (topic : Option Str) : Option (Str × Str) :=
  match topic with
  | none => none
  | some t => if t.isEmpty then none else some ("title".data, t)

namespace RAGEngine

/-- `RAGEngine.retrieve` (rag_engine.py lines 81-117).  The engine state is
the optional loaded vector store (a query-indexed ranked document list);
the `settings` module is passed explicitly so that the missing
`FETCH_RESULTS` attribute is modelled faithfully: its lookup inside the
`search_kwargs` dict literal raises `AttributeError`. -/
def retrieve (S : Settings) (vector_store : Option (Str → List Doc))
    (query : Str) (topic : Option Str) : Except PyErr (List Str) :=
  match vector_store with
  | none => .error .runtimeError
  | some ranked =>
    let search_filter := buildSearchFilter topic
    match S.FETCH_RESULTS with
    | none => .error .attributeError
    | some fetch_k =>
      .ok ((faissSearch (ranked query) S.TOP_K_RESULTS fetch_k
        search_filter).map Doc.page_content)

/-- `RAGEngine.retrieve_formatted` (rag_engine.py lines 122-124). -/
def retrieve_formatted (S : Settings) (vector_store : Option (Str → List Doc))
    (query : Str) (topic : Option Str) : Except PyErr Str :=
  (retrieve S vector_store query topic).map
    (fun chunks =>
      if chunks.isEmpty then [] else List.intercalate ("\n\n---\n\n".data) chunks)

end RAGEngine

-- ===========================================================================
-- scripts/setup_vectoredb.py — chunk_and_enrich_hierarchy
-- ===========================================================================

/-- An Unstructured element as consumed by `chunk_and_enrich_hierarchy`:
`page_content` plus the metadata keys the function reads.  Absent metadata
keys are `none` (Python `dict.get` returns `None`). -/
structure Element where
  page_content : Str
  category : Option Str
  emphasized_text_contents : Option (List Str)
  filename : Option Str
deriving DecidableEq

/-- The hierarchy path `(source, title, header, subheader)`. -/
structure SecPath where
  source : Str
  title : Str
  header : Str
  subheader : Str
deriving DecidableEq

/-- An enriched output chunk: prefixed content plus metadata
(setup_vectoredb.py lines 156-166). -/
structure EnrichedChunk where
  page_content : Str
  title : Str
  header : Str
  subheader : Str
  source : Str
  original_category : Option Str
  tokens : Nat
deriving DecidableEq

/-- `sections[path].append(text)` on an insertion-ordered dict modelled as an
association list. -/
def addToSections (secs : List (SecPath × List Str)) (p : SecPath) (t : Str) :
    List (SecPath × List Str) :=
  if secs.any (fun q => q.1 == p) then
    secs.map (fun q => if q.1 == p then (q.1, q.2 ++ [t]) else q)
  else
    secs ++ [(p, [t])]

/-- Loop state of passes 1-3 of `chunk_and_enrich_hierarchy` (lines 82-131):
the current hierarchy levels, the accumulated sections, and the Python
loop variable `el`, which keeps its last assigned value after the loop. -/
structure HState where
  current_title : Str
  current_header : Str
  current_subheader : Str
  sections : List (SecPath × List Str)
  el : Option Element
deriving DecidableEq

def initialHState : HState :=
  { current_title := "Unknown Title".data
    current_header := []
    current_subheader := []
    sections := []
    el := none }

/-- One iteration of the `for el in elements` loop (lines 87-131). -/
def processElement (st : HState) (e : Element) : HState :=
  let st := { st with el := some e }
  let text := pyStrip e.page_content
  if text.isEmpty then st
  else
    let category := e.category
    let is_bold := e.emphasized_text_contents == some [text]
    let is_all_caps := pyIsUpper text && decide (3 < text.length)
    let is_numbered :=
      if 0 < text.length then
        match text.head? with
        | some c => c.isDigit
        | none => false
      else false
    let category :=
      if category != some ("Title".data) then
        if is_bold || (is_all_caps && is_numbered) then some ("Header".data)
        else if is_all_caps then some ("Subheader".data)
        else category
      else category
    let current_source := e.filename.getD ("Unknown Source".data)
    if category == some ("Title".data) then
      { st with current_title := pyStrip text
                current_header := []
                current_subheader := [] }
    else if category == some ("Header".data) then
      { st with current_header := pyStrip text
                current_subheader := [] }
    else if category == some ("Subheader".data) then
      { st with current_subheader := pyStrip text }
    else
      { st with sections := (addToSections st.sections
          ⟨current_source, st.current_title, st.current_header,
            st.current_subheader⟩ text) }

/-- Passes 1-3: fold the element stream. -/
def buildHState (elements : List Element) : HState :=
  elements.foldl processElement initialHState

def buildSections (elements : List Element) : List (SecPath × List Str) :=
  (buildHState elements).sections

/-- The synthesized context-path line prepended to every chunk (lines 147-150). -/
def contextPrefix (p : SecPath) (chunk : Str) : Str :=
  ("Source: ".data) ++ p.source ++ (" > Context: ".data) ++ p.title ++
  (" > Section: ".data) ++ p.header ++ (" > Sub-Section: ".data) ++ p.subheader ++
  ("\nContent: ".data) ++ chunk

/-- Pass 4 body for one accumulated section (lines 134-167).  `split` is the
external langchain `RecursiveCharacterTextSplitter.split_text` (configured
with the separator cascade, token length function and token overlap);
`tok` is the external tiktoken-based `get_token_count`; `origCat` is
`el.metadata.get("category")` for the leftover loop variable `el`.
The branch at line 139 compares the Python `len` of the section string —
its character count — against `chunk_size`. -/
def sectionChunks (chunk_size : Nat) (split : Str → List Str)
    (tok : Str → Nat) (origCat : Option Str)
    (sec : SecPath × List Str) : List EnrichedChunk :=
  let full_section_text := List.intercalate ("\n\n".data) sec.2
  let sub_chunks :=
    if full_section_text.length < chunk_size then [full_section_text]
    else split full_section_text
  sub_chunks.map (fun chunk =>
    let full_content := contextPrefix sec.1 chunk
    { page_content := full_content
      title := sec.1.title
      header := sec.1.header
      subheader := sec.1.subheader
      source := sec.1.source
      original_category := origCat
      tokens := tok full_content })

/-- `chunk_and_enrich_hierarchy` (setup_vectoredb.py lines 60-169). -/
def chunk_and_enrich_hierarchy (chunk_size : Nat) (split : Str → List Str)
    (tok : Str → Nat) (elements : List Element) : List EnrichedChunk :=
  let st := buildHState elements
  let origCat := st.el.bind (fun e => e.category)
  st.sections.flatMap (sectionChunks chunk_size split tok origCat)

-- ===========================================================================
-- src/chatbot.py
-- ===========================================================================

/-- The state threaded through the LangGraph (chatbot.py lines 58-64). -/
structure GraphState where
  query : Str
  topic : Str
  context : Str
  validation : Str
  response : Str
  chat_history : Str
deriving DecidableEq

/-- Modelled from the spec: the opaque language-model capability (§1, §4.4-
§4.6).  Each field gives, for the prompt inputs that the corresponding node
interpolates, the `.content` of the model reply — or an exception.
`ranked` is the loaded vector store consulted by the retriever node. -/
structure LLM where
  router : Str → Except PyErr Str
  validator : Str → Str → Except PyErr Str
  responder : Str → Str → Str → Except PyErr Str
  off_topic : Str → Except PyErr Str
  insufficient : Str → Except PyErr Str
  greeting : Except PyErr Str
  farewell : Except PyErr Str

/-- Router output normalisation (chatbot.py line 106): strip the surrounding
characters `.`, newline, space, double and single quote, then strip
whitespace again. -/
def routerDelims : List Char := ['.', '\n', ' ', Char.ofNat 34, Char.ofNat 39]

def routerCandidate (raw : Str) : Str :=
  pyStrip (pyStripChars routerDelims (pyStrip raw))

/-- The matching loop of `router_node` (chatbot.py lines 108-112): the first
`TOPIC_MAP` key equal to the candidate case-insensitively, else
`"off_topic"`. -/
def routerMatch (raw : Str) : Str :=
  let candidate := routerCandidate raw
  (TOPIC_KEYS.find? (fun key => pyLower key == pyLower candidate)).getD offTopicStr

/-- `router_node` (chatbot.py lines 99-114). -/
def router_node (o : LLM) (st : GraphState) : Except PyErr GraphState := do
  let content ← o.router st.query
  pure { st with topic := routerMatch (pyStrip content) }

/-- `retriever_node` (chatbot.py lines 117-122). -/
def retriever_node (S : Settings) (rag : Option (Str → List Doc))
    (st : GraphState) : Except PyErr GraphState := do
  let context ← RAGEngine.retrieve_formatted S rag st.query (some st.topic)
  pure { st with context := context }

/-- `validator_node` (chatbot.py lines 125-133): upper-case the stripped raw
reply and check for the substring `PASS`. -/
def validator_node (o : LLM) (st : GraphState) : Except PyErr GraphState := do
  let content ← o.validator st.query st.context
  let raw := pyUpper (pyStrip content)
  let verdict := if pyIn PASSstr raw then PASSstr else ("FAIL".data)
  pure { st with validation := verdict }

/-- `responder_node` (chatbot.py lines 136-147). -/
def responder_node (o : LLM) (st : GraphState) : Except PyErr GraphState := do
  let answer ← o.responder st.context st.chat_history st.query
  pure { st with response := pyStrip answer }

/-- `off_topic_node` (chatbot.py lines 150-154). -/
def off_topic_node (o : LLM) (st : GraphState) : Except PyErr GraphState := do
  let answer ← o.off_topic st.query
  pure { st with response := pyStrip answer }

/-- `insufficient_node` (chatbot.py lines 157-161). -/
def insufficient_node (o : LLM) (st : GraphState) : Except PyErr GraphState := do
  let answer ← o.insufficient st.query
  pure { st with response := pyStrip answer }

/-- `route_after_router` (chatbot.py lines 167-168). -/
def route_after_router (st : GraphState) : Str :=
  if st.topic == offTopicStr then ("off_topic".data) else ("retriever".data)

/-- `route_after_validator` (chatbot.py lines 171-172). -/
def route_after_validator (st : GraphState) : Str :=
  if st.validation == PASSstr then ("responder".data) else ("insufficient".data)

/-- The compiled graph (`_build_graph`, chatbot.py lines 178-215): entry at
the router; conditional edge to retriever or off-topic; retriever flows to
validator; conditional edge to responder or insufficient; all three
response nodes are terminal. -/
def graphInvoke (S : Settings) (o : LLM) (rag : Option (Str → List Doc))
    (st : GraphState) : Except PyErr GraphState := do
  let st ← router_node o st
  if route_after_router st == ("retriever".data) then
    let st ← retriever_node S rag st
    let st ← validator_node o st
    if route_after_validator st == ("responder".data) then
      responder_node o st
    else
      insufficient_node o st
  else
    off_topic_node o st

-- ---------------------------------------------------------------------------
-- ProfileChatbot (chatbot.py lines 221-329)
-- ---------------------------------------------------------------------------

/-- One history entry `{role, content}`. -/
structure Entry where
  role : Str
  content : Str
deriving DecidableEq

/-- `settings.DEVELOPER_NAME`. -/
def DEVELOPER_NAME : Str := "Vivek Joseph Carvalho".data

/-- Static greeting fallback (chatbot.py lines 288-292). -/
def staticGreeting : Str :=
  ("I’m the AI voice 🤖 of Vivek Joseph Carvalho, a Senior AI/ML Specialist. Let's discuss about my experience, projects, skills, or background — I'm happy to answer!").data

/-- Static farewell fallback (chatbot.py lines 300-305). -/
def staticFarewell : Str :=
  ("Thank you for your interest!\n\n📧 Email: vivek_carvalho@yahoo.co.in\n💼 LinkedIn: https://www.linkedin.com/in/vivekcarvalho/\n\nLooking forward to connecting!").data

/-- The apology produced when invoking the graph raises (chatbot.py
lines 264-268). -/
def apologyMessage : Str :=
  ("I hit a small snag processing that — could you try rephrasing? I'm happy to help with anything about the profile.").data

/-- `get_greeting` (chatbot.py lines 277-292): LLM reply, static fallback on
exception. -/
def get_greeting (o : LLM) : Str :=
  match o.greeting with
  | .ok content => pyStrip content
  | .error _ => staticGreeting

/-- `get_farewell` (chatbot.py lines 294-305). -/
def get_farewell (o : LLM) : Str :=
  match o.farewell with
  | .ok content => pyStrip content
  | .error _ => staticFarewell

/-- `_push` (chatbot.py lines 310-314): append, then keep the last
`MAX_CONVERSATION_HISTORY` entries when the bound is exceeded. -/
def _push (history : List Entry) (role content : Str) : List Entry :=
  let h := history ++ [⟨role, content⟩]
  if MAX_CONVERSATION_HISTORY < h.length then
    takeLast MAX_CONVERSATION_HISTORY h
  else h

/-- `_format_history` (chatbot.py lines 316-323). -/
def _format_history (history : List Entry) : Str :=
  if history.isEmpty then ("No previous conversation.".data)
  else
    List.intercalate ("\n".data)
      ((takeLast 6 history).map (fun msg =>
        (if msg.role == ("user".data) then ("User: ".data)
         else ("Assistant: ".data)) ++ msg.content))

/-- `get_history` (chatbot.py lines 328-329): a copy of the history list. -/
def get_history (history : List Entry) : List Entry := history

/-- The greeting vocabulary (chatbot.py line 239), matched by exact set
membership of the trimmed lower-cased query. -/
def greetingPhrases : List Str :=
  ["hello".data, "hi".data, "hey".data, "greetings".data,
   "good morning".data, "good afternoon".data]

/-- The farewell vocabulary (chatbot.py line 245), matched by substring
containment in the trimmed lower-cased query. -/
def farewellWords : List Str :=
  ["bye".data, "goodbye".data, "thank you".data, "thanks".data,
   "see you".data, "stop".data, "exit".data]

/-- Which of the three top-level paths `chat` takes for a query
(chatbot.py lines 238-262). -/
inductive ChatBranch where
  | greeting : ChatBranch
  | farewell : ChatBranch
  | graph : ChatBranch
deriving DecidableEq

def chatBranch (query : Str) : ChatBranch :=
  let lower := pyStrip (pyLower query)
  if greetingPhrases.contains lower then .greeting
  else if farewellWords.any (fun w => pyIn w lower) then .farewell
  else .graph

/-- The two `_push` calls recording one turn. -/
def pushTurn (history : List Entry) (query reply : Str) : List Entry :=
  _push (_push history ("user".data) query) ("assistant".data) reply

/-- The initial graph state built by `chat` (chatbot.py lines 252-259). -/
def initialState (history : List Entry) (query : Str) : GraphState :=
  { query := query
    topic := []
    context := []
    validation := []
    response := []
    chat_history := _format_history history }

/-- `ProfileChatbot.chat` (chatbot.py lines 236-272): greeting/farewell
shortcuts, then the graph inside `try`, the apology on any exception,
and the two history pushes in every path. -/
def chat (S : Settings) (o : LLM) (rag : Option (Str → List Doc))
    (history : List Entry) (query : Str) : Str × List Entry :=
  match chatBranch query with
  | .greeting =>
    let reply := get_greeting o
    (reply, pushTurn history query reply)
  | .farewell =>
    let reply := get_farewell o
    (reply, pushTurn history query reply)
  | .graph =>
    let reply :=
      match graphInvoke S o rag (initialState history query) with
      | .ok final_state => final_state.response
      | .error _ => apologyMessage
    (reply, pushTurn history query reply)

/-- One `chat` turn acting on the pair (history, untruncated log of all
pushed entries). -/
def chatStepLog (S : Settings) (o : LLM) (rag : Option (Str → List Doc))
    (acc : List Entry × List Entry) (q : Str) : List Entry × List Entry :=
  let step := chat S o rag acc.1 q
  (step.2, acc.2 ++ [⟨"user".data, q⟩, ⟨"assistant".data, step.1⟩])

/-- Run a sequence of `chat` turns from an empty history, also logging every
pushed entry without truncation. -/
def runChatsLog (S : Settings) (o : LLM) (rag : Option (Str → List Doc))
    (qs : List Str) : List Entry × List Entry :=
  qs.foldl (chatStepLog S o rag) ([], [])

-- ===========================================================================
-- Concrete witnesses' auxiliary data
-- ===========================================================================

/-- An LLM capability for which every call raises. -/
def failingLLM : LLM :=
  { router := fun _ => .error .llmError
    validator := fun _ _ => .error .llmError
    responder := fun _ _ _ => .error .llmError
    off_topic := fun _ => .error .llmError
    insufficient := fun _ => .error .llmError
    greeting := .error .llmError
    farewell := .error .llmError }

/-- An LLM capability with distinct marker replies per node. -/
def markerLLM : LLM :=
  { router := fun _ => .ok ("off_topic".data)
    validator := fun _ _ => .ok PASSstr
    responder := fun _ _ _ => .ok ("GROUNDED".data)
    off_topic := fun _ => .ok ("REDIRECT".data)
    insufficient := fun _ => .ok ("NOINFO".data)
    greeting := .ok ("GREETINGS!".data)
    farewell := .ok ("FAREWELL!".data) }

/-- A one-document vector store used to observe the retrieval filter. -/
def introDoc : Doc :=
  { page_content := "Intro text".data
    metadata := [(("title".data), ("Introduction".data))] }

def rankedIntro : Str → List Doc := fun _ => [introDoc]

-- ===========================================================================
-- Claim theorems
-- ===========================================================================

/-- C2: for every raw output of the classification model, the router assigns
a topic that is a key of `TOPIC_MAP` or exactly `"off_topic"`: the raw
output is stripped of surrounding whitespace/punctuation/quotes, matched
case-insensitively against the keys, and a non-matching output is coerced
to `"off_topic"`; moreover `router_node` stores exactly this topic. -/
theorem router_topic_closure (raw : Str) :
    (routerMatch raw ∈ TOPIC_KEYS ∨ routerMatch raw = offTopicStr) ∧
    ((∀ k ∈ TOPIC_KEYS, pyLower k ≠ pyLower (routerCandidate raw)) →
      routerMatch raw = offTopicStr) ∧
    (∀ (o : LLM) (st : GraphState) (content : Str),
      o.router st.query = .ok content →
      router_node o st = .ok { st with topic := routerMatch (pyStrip content) }) := by
  refine ⟨?_, ?_, ?_⟩
  · unfold routerMatch
    dsimp only
    cases hf : TOPIC_KEYS.find?
        (fun key => pyLower key == pyLower (routerCandidate raw)) with
    | none => right; rfl
    | some k =>
      left
      simpa using List.mem_of_find?_eq_some hf
  · intro hnone
    unfold routerMatch
    dsimp only
    cases hf : TOPIC_KEYS.find?
        (fun key => pyLower key == pyLower (routerCandidate raw)) with
    | none => rfl
    | some k =>
      have hk := List.find?_some hf
      have hmem := List.mem_of_find?_eq_some hf
      exact absurd (by simpa using hk) (hnone k hmem)
  · intro o st content h
    unfold router_node
    rw [h]
    rfl

theorem router_topic_closure_witness :
    routerMatch ("What is the capital of France?".data) = offTopicStr :=
  (router_topic_closure ("What is the capital of France?".data)).2.1 (by decide)

/-- C3 (code bug): the claim states that `retrieve` on a loaded store returns
at most `k` chunk contents without raising; in the code as written every
call raises `AttributeError`, because line 111 of rag_engine.py reads
`settings.FETCH_RESULTS` and settings.py never defines that attribute. -/
theorem retrieve_always_raises (ranked : Str → List Doc) (query : Str)
    (topic : Option Str) :
    RAGEngine.retrieve actualSettings (some ranked) query topic =
      .error PyErr.attributeError := rfl

/-- C4 counterexample: calling `retrieve` with the non-canonical topic
`"off_topic"` does apply a metadata filter — Python truthiness only skips
the filter for `None`/empty — so the search is not the unfiltered top-k
search the claim describes (observable: the filtered search returns no
documents while the unfiltered one returns the stored document). -/
theorem retrieve_offtopic_filter_applied :
    buildSearchFilter (some offTopicStr) = some (("title".data), offTopicStr) ∧
    RAGEngine.retrieve specSettings (some rankedIntro) ("hi".data)
      (some offTopicStr) = .ok [] ∧
    RAGEngine.retrieve specSettings (some rankedIntro) ("hi".data) none =
      .ok [("Intro text".data)] ∧
    ([] : List Str) ≠ [("Intro text".data)] :=
  ⟨rfl, rfl, rfl, by decide⟩

/-- C4 (amended): no filter is applied exactly when the topic is null or the
empty string; every non-empty topic string — canonical or not — is passed
as an equality filter on the `"title"` metadata key; and (with the
missing `FETCH_RESULTS` setting modelled as present) `retrieve` performs
the search with exactly that filter. -/
theorem retrieve_filter_truthiness (topic : Option Str) :
    (buildSearchFilter topic = none ↔ (topic = none ∨ topic = some [])) ∧
    (∀ t : Str, topic = some t → t ≠ [] →
      buildSearchFilter topic = some (("title".data), t)) ∧
    (∀ (S : Settings) (fk : Nat) (ranked : Str → List Doc) (q : Str),
      S.FETCH_RESULTS = some fk →
      RAGEngine.retrieve S (some ranked) q topic =
        .ok ((faissSearch (ranked q) S.TOP_K_RESULTS fk
          (buildSearchFilter topic)).map Doc.page_content)) := by
  refine ⟨?_, ?_, ?_⟩
  · cases topic with
    | none => simp [buildSearchFilter]
    | some t =>
      cases t with
      | nil => simp [buildSearchFilter]
      | cons c cs => simp [buildSearchFilter]
  · intro t ht hne
    subst ht
    simp [buildSearchFilter, List.isEmpty_iff, hne]
  · intro S fk ranked q hS
    unfold RAGEngine.retrieve
    rw [hS]

theorem retrieve_filter_truthiness_witness :
    RAGEngine.retrieve specSettings (some rankedIntro) ("hi".data)
      (some ("Education".data)) =
      .ok ((faissSearch (rankedIntro ("hi".data)) specSettings.TOP_K_RESULTS 20
        (buildSearchFilter (some ("Education".data)))).map Doc.page_content) :=
  (retrieve_filter_truthiness (some ("Education".data))).2.2
    specSettings 20 rankedIntro ("hi".data) rfl

/-- A 200-character body text. -/
def longBodyText : Str := List.replicate 200 'x'

def longBodyElement : Element :=
  { page_content := longBodyText
    category := some ("NarrativeText".data)
    emphasized_text_contents := none
    filename := some ("About_me.docx".data) }

/-- A tokenizer on which every character encodes to three tokens, as real BPE
tokenizers do on emoji or rare-unicode text: it exhibits section strings
whose character count is under the threshold while their token count is
not. -/
def tokTriple : Str → Nat := fun s => 3 * s.length

/-- A splitter producing two pieces, so the two branches of the splitting
pass are observably different. -/
def splitHalves : Str → List Str := fun s => [s.take 100, s.drop 100]

set_option maxRecDepth 40000 in
/-- C5 counterexample: a section of 200 characters (600 tokens under
`tokTriple`) is emitted as a single chunk even though its token length is
not below the threshold 500 — because line 139 of setup_vectoredb.py
compares the character count `len(full_section_text)`, not the token
count, against `chunk_size`; the claim's "exactly when its token length
is below the threshold" fails on this input. -/
theorem chunker_branch_counterexample :
    buildSections [longBodyElement] =
      [(⟨("About_me.docx".data), ("Unknown Title".data), [], []⟩,
        [longBodyText])] ∧
    (chunk_and_enrich_hierarchy CHUNK_WARNING_THRESHOLD splitHalves tokTriple
      [longBodyElement]).length = 1 ∧
    ¬ tokTriple longBodyText < CHUNK_WARNING_THRESHOLD ∧
    (splitHalves longBodyText).length = 2 :=
  ⟨rfl, rfl, by decide, rfl⟩

/-- C5 (amended): in the splitting pass, an assembled section string is
emitted as a single chunk exactly when its character count (Python `len`)
is below the configured threshold; otherwise the emitted chunks are the
pieces returned by the configured recursive splitter, each prefixed with
the section's context line. -/
theorem chunker_single_chunk_iff_char_length (chunk_size : Nat)
    (split : Str → List Str) (tok : Str → Nat) (elements : List Element)
    (origCat : Option Str) (sec : SecPath × List Str)
    (hsec : sec ∈ buildSections elements) :
    ((List.intercalate ("\n\n".data) sec.2).length < chunk_size →
      (sectionChunks chunk_size split tok origCat sec).map
          EnrichedChunk.page_content =
        [contextPrefix sec.1 (List.intercalate ("\n\n".data) sec.2)]) ∧
    (¬ (List.intercalate ("\n\n".data) sec.2).length < chunk_size →
      (sectionChunks chunk_size split tok origCat sec).map
          EnrichedChunk.page_content =
        (split (List.intercalate ("\n\n".data) sec.2)).map
          (contextPrefix sec.1)) ∧
    chunk_and_enrich_hierarchy chunk_size split tok elements =
      (buildSections elements).flatMap
        (sectionChunks chunk_size split tok
          ((buildHState elements).el.bind (fun e => e.category))) := by
  refine ⟨?_, ?_, rfl⟩
  · intro h
    unfold sectionChunks
    dsimp only
    rw [if_pos h]
    rfl
  · intro h
    unfold sectionChunks
    dsimp only
    rw [if_neg h]
    simp

/-- A short body element for concrete evaluation. -/
def shortBodyElement : Element :=
  { page_content := "A short paragraph.".data
    category := some ("NarrativeText".data)
    emphasized_text_contents := none
    filename := some ("About_me.docx".data) }

theorem chunker_single_chunk_witness :
    (sectionChunks CHUNK_WARNING_THRESHOLD splitHalves tokTriple
        (some ("NarrativeText".data))
        (⟨("About_me.docx".data), ("Unknown Title".data), [], []⟩,
         ["A short paragraph.".data])).map EnrichedChunk.page_content =
      [contextPrefix ⟨("About_me.docx".data), ("Unknown Title".data), [], []⟩
        (List.intercalate ("\n\n".data) ["A short paragraph.".data])] :=
  (chunker_single_chunk_iff_char_length CHUNK_WARNING_THRESHOLD splitHalves
    tokTriple [shortBodyElement] (some ("NarrativeText".data))
    (⟨("About_me.docx".data), ("Unknown Title".data), [], []⟩,
     ["A short paragraph.".data]) (by decide)).1 (by decide)

theorem processElement_el (st : HState) (e : Element) :
    (processElement st e).el = some e := by
  unfold processElement
  dsimp only
  repeat' split
  all_goals rfl

theorem foldl_processElement_el (elements : List Element) :
    ∀ st : HState,
      (elements.foldl processElement st).el = (elements.getLast?).or st.el := by
  induction elements with
  | nil => intro st; rfl
  | cons e t ih =>
    intro st
    rw [List.foldl_cons, ih (processElement st e), processElement_el,
      List.getLast?_cons]
    cases ht : t.getLast? <;> rfl

/-- C10: every chunk emitted by `chunk_and_enrich_hierarchy` carries, as its
`original_category` metadata, the category recorded on the last element of
the input sequence — the Python loop variable `el` keeps its final value
when the metadata is built in the assembly loop — regardless of which
element's text the chunk contains. -/
theorem chunk_original_category_from_last_element (chunk_size : Nat)
    (split : Str → List Str) (tok : Str → Nat) (elements : List Element)
    (c : EnrichedChunk)
    (hc : c ∈ chunk_and_enrich_hierarchy chunk_size split tok elements) :
    c.original_category = (elements.getLast?).bind (fun e => e.category) := by
  unfold chunk_and_enrich_hierarchy at hc
  rw [List.mem_flatMap] at hc
  rcases hc with ⟨sec, hsec, hcm⟩
  unfold sectionChunks at hcm
  rw [List.mem_map] at hcm
  rcases hcm with ⟨chunk, hchunk, hceq⟩
  have hcat : c.original_category =
      (buildHState elements).el.bind (fun e => e.category) := by
    rw [← hceq]
  rw [hcat]
  unfold buildHState
  rw [foldl_processElement_el elements initialHState]
  rw [show initialHState.el = none from rfl, Option.or_none]

/-- Two body elements with different original categories, grouped into one
section. -/
def elsTwoCats : List Element :=
  [{ page_content := "alpha".data
     category := some ("NarrativeText".data)
     emphasized_text_contents := none
     filename := none },
   { page_content := "beta".data
     category := some ("ListItem".data)
     emphasized_text_contents := none
     filename := none }]

theorem chunk_original_category_witness :
    ((chunk_and_enrich_hierarchy 500 splitHalves tokTriple elsTwoCats).get
        ⟨0, by decide⟩).original_category = some ("ListItem".data) :=
  (chunk_original_category_from_last_element 500 splitHalves tokTriple
    elsTwoCats _ (List.get_mem _ 0 _)).trans (by decide)

theorem except_ok_bind {ε α β : Type} (a : α) (f : α → Except ε β) :
    (Except.ok (ε := ε) a).bind f = f a := rfl

theorem graphInvoke_eq (S : Settings) (o : LLM) (rag : Option (Str → List Doc))
    (st : GraphState) :
    graphInvoke S o rag st = (router_node o st).bind (fun st1 =>
      if route_after_router st1 == ("retriever".data) then
        (retriever_node S rag st1).bind (fun st2 =>
          (validator_node o st2).bind (fun st3 =>
            if route_after_validator st3 == ("responder".data) then
              responder_node o st3
            else insufficient_node o st3))
      else off_topic_node o st1) := rfl

theorem validator_node_eq (o : LLM) (st : GraphState) (content : Str)
    (h : o.validator st.query st.context = .ok content) :
    validator_node o st = .ok { st with validation := (if pyIn PASSstr
      (pyUpper content) then PASSstr else ("FAIL".data)) } := by
  unfold validator_node
  rw [h, ← pass_in_upper_strip content]
  rfl

/-- C6: the validator's verdict is `PASS` exactly when `PASS` occurs
case-insensitively as a substring of the raw model response; and whenever
the verdict is not `PASS`, the graph reaches the insufficient-context
node, so the final response is the insufficient-context fallback and
never the responder's grounded answer. -/
theorem validator_verdict_and_gate (S : Settings) (o : LLM)
    (rag : Option (Str → List Doc)) (st : GraphState) :
    (∀ content st', o.validator st.query st.context = .ok content →
      validator_node o st = .ok st' →
      (st'.validation = PASSstr ↔ pyIn PASSstr (pyUpper content) = true)) ∧
    (∀ st1 st2 st3 icontent,
      router_node o st = .ok st1 →
      st1.topic ≠ offTopicStr →
      retriever_node S rag st1 = .ok st2 →
      validator_node o st2 = .ok st3 →
      st3.validation ≠ PASSstr →
      o.insufficient st3.query = .ok icontent →
      graphInvoke S o rag st = .ok { st3 with response := pyStrip icontent }) := by
  constructor
  · intro content st' hok hnode
    rw [validator_node_eq o st content hok] at hnode
    injection hnode with hst
    rw [← hst]
    cases hin : pyIn PASSstr (pyUpper content) with
    | true => simp [hin]
    | false =>
      simp only [hin, Bool.false_eq_true, if_neg]
      constructor
      · intro hfp
        exact absurd hfp (by decide)
      · intro hfalse
        exact absurd hfalse (by decide)
  · intro st1 st2 st3 icontent h1 hne h2 h3 hnp hins
    rw [graphInvoke_eq, h1, except_ok_bind]
    have hrr : route_after_router st1 = ("retriever".data) := by
      unfold route_after_router
      rw [beq_eq_false_iff_ne.mpr hne]
      rfl
    rw [if_pos (by rw [hrr]; rfl)]
    rw [h2, except_ok_bind, h3, except_ok_bind]
    have hrv : route_after_validator st3 = ("insufficient".data) := by
      unfold route_after_validator
      rw [beq_eq_false_iff_ne.mpr hnp]
      rfl
    rw [if_neg (by rw [hrv]; decide)]
    unfold insufficient_node
    rw [hins]
    rfl

/-- LLM oracle for observing the validator gate concretely. -/
def gateLLM : LLM :=
  { router := fun _ => .ok ("Skills".data)
    validator := fun _ _ => .ok ("FAIL — not enough context".data)
    responder := fun _ _ _ => .ok ("GROUNDED".data)
    off_topic := fun _ => .ok ("REDIRECT".data)
    insufficient := fun _ => .ok (" Sorry, that detail is not available. ".data)
    greeting := .ok ("G".data)
    farewell := .ok ("F".data) }

def emptyStore : Str → List Doc := fun _ => []

def gateQuery : Str := "What are your hobbies".data

def gateState0 : GraphState :=
  { query := gateQuery, topic := [], context := [], validation := [],
    response := [], chat_history := [] }

def gateState3 : GraphState :=
  { query := gateQuery, topic := ("Skills".data), context := [],
    validation := ("FAIL".data), response := [], chat_history := [] }

theorem validator_verdict_and_gate_witness :
    graphInvoke specSettings gateLLM (some emptyStore) gateState0 =
      .ok { gateState3 with
        response := pyStrip (" Sorry, that detail is not available. ".data) } :=
  (validator_verdict_and_gate specSettings gateLLM (some emptyStore)
      gateState0).2
    { gateState0 with topic := ("Skills".data) }
    { gateState0 with topic := ("Skills".data), context := [] }
    gateState3 (" Sorry, that detail is not available. ".data)
    rfl (by decide) rfl rfl (by decide) rfl

/-- C1: every `chat` call returns a reply string and records the turn (user
entry then assistant entry) in the history; when the query goes through
the graph and invoking the graph raises any exception, the exception is
absorbed and the reply is the single apology-and-retry message, with the
turn still recorded. -/
theorem chat_absorbs_graph_errors (S : Settings) (o : LLM)
    (rag : Option (Str → List Doc)) (history : List Entry) (query : Str) :
    (∃ reply, chat S o rag history query = (reply, pushTurn history query reply)) ∧
    (∀ e : PyErr, chatBranch query = ChatBranch.graph →
      graphInvoke S o rag (initialState history query) = .error e →
      chat S o rag history query =
        (apologyMessage, pushTurn history query apologyMessage)) := by
  constructor
  · unfold chat
    cases chatBranch query <;> exact ⟨_, rfl⟩
  · intro e hb hg
    unfold chat
    rw [hb, hg]

theorem chat_absorbs_graph_errors_witness :
    chat actualSettings failingLLM none [] ("What frameworks do you use".data) =
      (apologyMessage,
       pushTurn [] ("What frameworks do you use".data) apologyMessage) :=
  (chat_absorbs_graph_errors actualSettings failingLLM none []
      ("What frameworks do you use".data)).2
    PyErr.llmError (by decide) rfl

/-- C7 counterexample: the query `"Hello!"` does not match the greeting
vocabulary (the shortcut tests exact set membership of the trimmed
lower-cased query, and `"hello!"` is not in the set), so `chat` feeds it
through the graph: with an LLM whose off-topic reply is `"REDIRECT"` and
whose greeting is `"GREETINGS!"`, the reply is the graph's `"REDIRECT"`,
not a greeting. -/
theorem chat_hello_bang_goes_through_graph :
    chatBranch ("Hello!".data) = ChatBranch.graph ∧
    chat actualSettings markerLLM none [] ("Hello!".data) =
      (("REDIRECT".data),
       pushTurn [] ("Hello!".data) ("REDIRECT".data)) ∧
    get_greeting markerLLM = ("GREETINGS!".data) ∧
    ("REDIRECT".data) ≠ ("GREETINGS!".data) :=
  ⟨by decide, rfl, rfl, by decide⟩

theorem push_eq_append {history : List Entry} {role content : Str}
    (h : history.length + 1 ≤ MAX_CONVERSATION_HISTORY) :
    _push history role content = history ++ [⟨role, content⟩] := by
  unfold _push
  rw [if_neg (by simp; omega)]

/-- C7 (amended): a query whose trimmed lower-cased form is exactly one of
the fixed greeting phrases — such as `"Hello"`, but not `"Hello!"` —
takes the greeting shortcut, bypassing the graph: the reply is the
greeting and, as long as the bound is not exceeded, the history grows by
exactly the two entries user-then-assistant. -/
theorem chat_hello_exact_greeting (S : Settings) (o : LLM)
    (rag : Option (Str → List Doc)) (history : List Entry) :
    chatBranch ("Hello".data) = ChatBranch.greeting ∧
    (chat S o rag history ("Hello".data)).1 = get_greeting o ∧
    (history.length + 2 ≤ MAX_CONVERSATION_HISTORY →
      (chat S o rag history ("Hello".data)).2 =
        history ++ [⟨("user".data), ("Hello".data)⟩,
                    ⟨("assistant".data), get_greeting o⟩]) := by
  have hb : chatBranch ("Hello".data) = ChatBranch.greeting := by decide
  refine ⟨hb, ?_, ?_⟩
  · unfold chat
    rw [hb]
  · intro hlen
    unfold chat
    rw [hb]
    show pushTurn history ("Hello".data) (get_greeting o) = _
    unfold pushTurn
    have h1 : _push history ("user".data) ("Hello".data) =
        history ++ [⟨("user".data), ("Hello".data)⟩] :=
      push_eq_append (by omega)
    rw [h1]
    have h2 : _push (history ++ [⟨("user".data), ("Hello".data)⟩])
        ("assistant".data) (get_greeting o) =
        (history ++ [⟨("user".data), ("Hello".data)⟩]) ++
          [⟨("assistant".data), get_greeting o⟩] :=
      push_eq_append (by simp; omega)
    rw [h2, List.append_assoc]
    rfl

theorem chat_hello_exact_greeting_witness :
    (chat actualSettings markerLLM none [] ("Hello".data)).2 =
      [] ++ [⟨("user".data), ("Hello".data)⟩,
             ⟨("assistant".data), get_greeting markerLLM⟩] :=
  (chat_hello_exact_greeting actualSettings markerLLM none []).2.2 (by decide)

theorem chat_snd_eq_pushTurn (S : Settings) (o : LLM)
    (rag : Option (Str → List Doc)) (history : List Entry) (query : Str) :
    (chat S o rag history query).2 =
      pushTurn history query (chat S o rag history query).1 := by
  unfold chat
  cases chatBranch query <;> rfl

theorem push_eq_takeLast (history : List Entry) (role content : Str) :
    _push history role content =
      takeLast MAX_CONVERSATION_HISTORY (history ++ [⟨role, content⟩]) := by
  unfold _push
  dsimp only
  split
  · rfl
  · rw [takeLast_of_length_le (by omega)]

theorem foldl_chatStepLog_inv (S : Settings) (o : LLM)
    (rag : Option (Str → List Doc)) (qs : List Str) :
    ∀ acc : List Entry × List Entry,
      acc.1 = takeLast MAX_CONVERSATION_HISTORY acc.2 →
      (qs.foldl (chatStepLog S o rag) acc).1 =
        takeLast MAX_CONVERSATION_HISTORY
          (qs.foldl (chatStepLog S o rag) acc).2 := by
  induction qs with
  | nil => intro acc hacc; exact hacc
  | cons q t ih =>
    intro acc hacc
    rw [List.foldl_cons]
    apply ih
    unfold chatStepLog
    dsimp only
    rw [chat_snd_eq_pushTurn]
    unfold pushTurn
    rw [push_eq_takeLast, push_eq_takeLast, hacc,
      takeLast_append_takeLast, List.append_assoc, takeLast_append_takeLast]
    rfl

/-- C8: after any sequence of `chat` turns, `get_history` holds at most
`MAX_CONVERSATION_HISTORY` entries, and they are exactly the most
recently pushed entries in original insertion order (oldest dropped
first). -/
theorem history_bound_and_retention (S : Settings) (o : LLM)
    (rag : Option (Str → List Doc)) (qs : List Str) :
    get_history (runChatsLog S o rag qs).1 =
      takeLast MAX_CONVERSATION_HISTORY (runChatsLog S o rag qs).2 ∧
    (get_history (runChatsLog S o rag qs).1).length ≤
      MAX_CONVERSATION_HISTORY := by
  have hmain : (runChatsLog S o rag qs).1 =
      takeLast MAX_CONVERSATION_HISTORY (runChatsLog S o rag qs).2 :=
    foldl_chatStepLog_inv S o rag qs ([], []) rfl
  constructor
  · exact hmain
  · rw [show get_history (runChatsLog S o rag qs).1 =
        (runChatsLog S o rag qs).1 from rfl, hmain]
    exact takeLast_length_le _ _

/-- C9: any query whose lower-cased text contains one of the farewell words
as a substring — also inside a longer word, as in "stop-loss" or
"exiting" — short-circuits `chat` to the farewell reply without invoking
the graph, whereas the greeting shortcut fires exactly when the whole
trimmed lower-cased query is one of the fixed greeting phrases. -/
theorem farewell_substring_shortcut (S : Settings) (o : LLM)
    (rag : Option (Str → List Doc)) (history : List Entry) (query w : Str)
    (hw : w ∈ farewellWords) (hin : pyIn w (pyLower query) = true) :
    (chatBranch query = ChatBranch.farewell ∧
     chat S o rag history query =
       (get_farewell o, pushTurn history query (get_farewell o))) ∧
    (∀ q : Str, chatBranch q = ChatBranch.greeting ↔
      greetingPhrases.contains (pyStrip (pyLower q)) = true) := by
  have hgreet_iff : ∀ q : Str, chatBranch q = ChatBranch.greeting ↔
      greetingPhrases.contains (pyStrip (pyLower q)) = true := by
    intro q
    unfold chatBranch
    dsimp only
    by_cases h : greetingPhrases.contains (pyStrip (pyLower q)) = true
    · rw [if_pos h]
      exact ⟨fun _ => h, fun _ => rfl⟩
    · rw [if_neg h]
      constructor
      · intro hx
        split at hx
        · exact absurd hx (by decide)
        · exact absurd hx (by decide)
      · intro hx
        exact absurd hx h
  refine ⟨?_, hgreet_iff⟩
  have hin' : pyIn w (pyStrip (pyLower query)) = true := by
    refine pyIn_pyStrip_of_pyIn w (pyLower query) ?_ ?_ hin
    · fin_cases hw <;>
        (intro c hc; have hcc := Option.some.inj hc; subst hcc; decide)
    · fin_cases hw <;>
        (intro c hc; have hcc := Option.some.inj hc; subst hcc; decide)
  have hnotg : greetingPhrases.contains (pyStrip (pyLower query)) = false := by
    by_contra hcg
    rw [Bool.not_eq_false] at hcg
    have hmem : pyStrip (pyLower query) ∈ greetingPhrases :=
      List.elem_iff.mp hcg
    simp only [greetingPhrases, List.mem_cons, List.not_mem_nil,
      or_false] at hmem
    rcases hmem with h6 | h6 | h6 | h6 | h6 | h6 <;>
      (rw [h6] at hin'; revert hin'; fin_cases hw <;> decide)
  have hfareAny :
      farewellWords.any (fun x => pyIn x (pyStrip (pyLower query))) = true :=
    List.any_eq_true.mpr ⟨w, hw, hin'⟩
  have hbranch : chatBranch query = ChatBranch.farewell := by
    unfold chatBranch
    dsimp only
    rw [if_neg (by rw [hnotg]; exact Bool.false_ne_true), if_pos hfareAny]
  refine ⟨hbranch, ?_⟩
  unfold chat
  rw [hbranch]

theorem farewell_substring_shortcut_witness :
    chat actualSettings markerLLM none []
        ("explain your stop-loss approach".data) =
      (get_farewell markerLLM,
       pushTurn [] ("explain your stop-loss approach".data)
         (get_farewell markerLLM)) :=
  ((farewell_substring_shortcut actualSettings markerLLM none []
      ("explain your stop-loss approach".data) ("stop".data)
      (by decide) (by decide)).1).2
